import Mathlib

/-
  Verification of agent-side runtime behaviour of the RADICAL-Pilot
  repository against its natural-language specification.

  The development shallowly embeds the Python source files under
  src/src/radical/pilot/ into Lean:

  * agent/agent_0.py            -- Agent_0 supervisor (finalize, command
                                   drain, unit pull cycle)
  * agent/staging_input/default.py -- agent staging-input component
  * agent/launch_method/mpiexec.py -- MPIExec launch method
  * session.py                  -- Session constructor role/uid handling
  * raptor_tasks.py             -- Raptor.submit_workers

  External effects (database reads/writes, filesystem operations, shell
  probes) are made explicit: stateful code is modelled by explicit state
  passing and by traces of the operations the code issues, and fallible
  code returns Option/Except.  Values that the Python code obtains from
  outside the embedded fragment (e.g. the result of a `which` probe, the
  URL resolver `complete_url` which lives in a module that is not part of
  the analysed sources) are passed in as parameters, so theorems quantify
  over them.
-/

set_option linter.unusedVariables false

namespace RadicalPilot

/-! ## Task and pilot states (states.py, referenced constants only) -/

/-- Task/pilot state constants of radical.pilot.states used by the embedded
    code paths.  Only the constants the analysed fragments mention are
    modelled. -/
inductive RPState
  | AGENT_STAGING_INPUT_PENDING
  | AGENT_STAGING_INPUT
  | AGENT_SCHEDULING_PENDING
  | TMGR_STAGING_OUTPUT_PENDING
  | PMGR_ACTIVE
  | DONE
  | FAILED
  | CANCELED
  deriving DecidableEq, Repr

/-! ## Agent_0.finalize -- final pilot state selection

    Embeds agent_0.py, `Agent_0.finalize`, lines 246-249:

      if   self._final_cause == 'timeout'  : state = rps.DONE
      elif self._final_cause == 'cancel'   : state = rps.CANCELED
      elif self._final_cause == 'sys.exit' : state = rps.CANCELED
      else                                 : state = rps.FAILED

    `self._final_cause` is initialised to None and possibly set to one of
    the string causes before finalize runs; it is modelled as an
    `Option String`. -/

/-- Final pilot state chosen by `Agent_0.finalize` from the recorded
    terminal cause. -/
def finalPilotState (final_cause : Option String) : RPState :=
  if final_cause = some "timeout" then RPState.DONE
  else if final_cause = some "cancel" then RPState.CANCELED
  else if final_cause = some "sys.exit" then RPState.CANCELED
  else RPState.FAILED

end RadicalPilot

namespace RadicalPilot

/-! ## Agent_0._check_commands -- mailbox command drain

    Embeds agent_0.py, `Agent_0._check_commands`, lines 488-531.  The
    method drains the pilot document's `cmd` list and processes each
    command spec in order:

      * `heartbeat` with `arg['pmgr'] == self._pmgr` beats the pmgr uid;
      * `cancel_pilot` publishes a `terminate` message on the control
        pubsub, records final cause `cancel`, stops the agent, and returns
        False (remaining drained commands are not processed);
      * `cancel_units` publishes a `cancel_units` message carrying the
        argument on the control pubsub;
      * any other verb is logged and ignored.

    The published messages, heartbeats, final cause and stop flag are the
    observable effects and are modelled as an explicit effect state.
    Python reads `arg['pmgr']`; the argument dict is modelled as a record
    with an optional `pmgr` field and a list payload for `cancel_units`. -/

/-- Payload of a drained command spec (the `arg` entry). -/
structure CmdArg where
  pmgr : Option String := none
  uids : List String := []
  deriving DecidableEq, Repr

/-- One entry of the drained `cmd` list of the pilot document. -/
structure CmdSpec where
  cmd : String
  arg : CmdArg
  deriving DecidableEq, Repr

/-- A message published on a pubsub channel: verb and optional argument. -/
structure PubMsg where
  cmd : String
  arg : Option CmdArg
  deriving DecidableEq, Repr

/-- Name of the control pubsub channel (constants.py `CONTROL_PUBSUB`). -/
def CONTROL_PUBSUB : String := "control_pubsub"

/-- Observable effects of Agent_0 command processing. -/
structure Agent0Effects where
  published : List (String × PubMsg) := []
  beats : List String := []
  final_cause : Option String := none
  stopped : Bool := false
  deriving DecidableEq, Repr

/-- Initial (empty) effect state. -/
def Agent0Effects.init : Agent0Effects := {}

/-- Processing of a single drained command spec by `_check_commands`
    (agent_0.py lines 512-529).  Returns the new effect state and whether
    the drain loop continues (`cancel_pilot` returns False). -/
def checkCommandsStep (pmgr : String) (spec : CmdSpec) (st : Agent0Effects) :
    Agent0Effects × Bool :=
  if spec.cmd = "heartbeat" ∧ spec.arg.pmgr = some pmgr then
    ({ st with beats := st.beats ++ [pmgr] }, true)
  else if spec.cmd = "cancel_pilot" then
    ({ st with
        published := st.published ++ [(CONTROL_PUBSUB, ⟨"terminate", none⟩)],
        final_cause := some "cancel",
        stopped := true }, false)
  else if spec.cmd = "cancel_units" then
    ({ st with
        published := st.published ++
          [(CONTROL_PUBSUB, ⟨"cancel_units", some spec.arg⟩)] }, true)
  else
    (st, true)

/-- Drain loop of `_check_commands` over the wiped `cmd` list; processing
    stops early when a step returns False. -/
def checkCommands (pmgr : String) :
    List CmdSpec → Agent0Effects → Agent0Effects × Bool
  | [], st => (st, true)
  | spec :: rest, st =>
    let res := checkCommandsStep pmgr spec st
    if res.2 then checkCommands pmgr rest res.1 else (res.1, false)

end RadicalPilot

namespace RadicalPilot

/-! ## Agent_0._check_units_cb -- mailbox unit pull cycle

    Embeds agent_0.py, `Agent_0._check_units_cb`, lines 551-604.  The
    cycle issues a `find` query for documents with
    type == 'unit', pilot == pid, control == 'agent_pending'; if the
    cursor is empty it returns.  Otherwise it issues a separate `update`
    (multi) setting control := 'agent' for the found uids, patches each
    pulled unit in memory (control := 'agent'; state collapsed from the
    recorded state history by `rps._unit_state_collapse`, a helper outside
    the analysed sources and therefore passed as a parameter), and
    advances the pulled units into the pipeline.

    The mailbox is modelled as a list of unit documents; the database
    operations the cycle issues are recorded in a trace so that the
    claimed access pattern (an atomic find-and-modify) can be compared
    with the actual one (find followed by update). -/

/-- A unit document of the mailbox collection. -/
structure UnitDoc where
  uid : String
  type : String
  pilot : String
  control : String
  states : List String := []
  state : String := ""
  deriving DecidableEq, Repr

/-- Database operations issued against the mailbox collection. -/
inductive DbOp
  | findOp (type pilot control : String)
  | updateOp (uids : List String) (control : String) (multi : Bool)
  | findAndModifyOp (type pilot control_from control_to : String) (multi : Bool)
  deriving DecidableEq, Repr

/-- Match of the pull query of `_check_units_cb` (agent_0.py lines
    561-563). -/
def unitQueryMatch (pid : String) (u : UnitDoc) : Bool :=
  u.type = "unit" ∧ u.pilot = pid ∧ u.control = "agent_pending"

/-- Effect of the mailbox update of lines 572-575: every document with
    type == 'unit' and uid among the given uids gets the new control
    value. -/
def updateControl (uids : List String) (c : String) (store : List UnitDoc) :
    List UnitDoc :=
  store.map fun u =>
    if u.type = "unit" ∧ u.uid ∈ uids then { u with control := c } else u

/-- Result of one pull cycle: mailbox after the cycle, units advanced into
    the pipeline, database operation trace, and the callback's return
    value. -/
structure PullResult where
  store : List UnitDoc
  advanced : List UnitDoc
  trace : List DbOp
  ret : Bool
  deriving Repr

/-- One `_check_units_cb` pull cycle (agent_0.py lines 551-604).  The
    `collapse` parameter stands for `rps._unit_state_collapse`; the
    environment merge of lines 582-587 touches only the task description
    and is not modelled. -/
def checkUnitsCb (collapse : List String → String) (pid : String)
    (store : List UnitDoc) : PullResult :=
  let found := store.filter (unitQueryMatch pid)
  if found.isEmpty then
    { store := store, advanced := [],
      trace := [DbOp.findOp "unit" pid "agent_pending"], ret := true }
  else
    let uids := found.map (fun u => u.uid)
    { store := updateControl uids "agent" store,
      advanced := found.map fun u =>
        { u with state := collapse u.states, control := "agent" },
      trace := [DbOp.findOp "unit" pid "agent_pending",
                DbOp.updateOp uids "agent" true],
      ret := true }

/-- The access pattern asserted by the specification: the pull cycle
    consists of a single atomic find-and-modify that moves control from
    'agent_pending' to 'agent' (multi) before any read of the claimed
    list. -/
def atomicClaimTrace (pid : String) (tr : List DbOp) : Prop :=
  tr = [DbOp.findAndModifyOp "unit" pid "agent_pending" "agent" true]

end RadicalPilot

namespace RadicalPilot

/-! ## Agent staging-input component (staging_input/default.py)

    Embeds `Default._work` (lines 54-93) and `Default._handle_task`
    (lines 98-246).  Filesystem state and effects are made explicit:

      * path predicates (`os.path.exists/isdir/isfile`) and the outcome of
        each attempted filesystem operation are supplied by an `FsOracle`;
      * the operations the component attempts are recorded as a trace of
        `FsOp` values;
      * `complete_url` lives in staging_directives.py, which is not among
        the analysed sources; it is passed in as a resolver parameter
        mapping a URL string and the sandbox context to a resolved URL.

    Python exceptions (failed asserts, errors raised by filesystem calls)
    are modelled by an optional error string next to the trace. -/

/-- Staging directive actions (constants.py LINK/COPY/MOVE/TARBALL/
    TRANSFER). -/
inductive SDAction
  | LINK
  | COPY
  | MOVE
  | TARBALL
  | TRANSFER
  deriving DecidableEq, Repr

/-- One input staging directive of a task description. -/
structure StagingDirective where
  action : SDAction
  uid : String := ""
  source : String := ""
  target : String := ""
  deriving DecidableEq, Repr

/-- A parsed URL as manipulated through ru.Url: scheme, host and path. -/
structure Url where
  schema : String
  host : String
  path : String
  deriving DecidableEq, Repr

/-- Rendering of a Url back to a string (str(url)). -/
def Url.str (u : Url) : String :=
  u.schema ++ "://" ++ u.host ++ u.path

/-- A task as seen by the staging-input component: uid, staging
    directives, sandboxes, and the mutable failure fields. -/
structure STask where
  uid : String
  input_staging : List StagingDirective := []
  task_sandbox : Url
  pilot_sandbox : Url
  session_sandbox : Url
  resource_sandbox : Url
  endpoint_fs : Url
  target_state : Option RPState := none
  exception : Option String := none
  deriving DecidableEq, Repr

/-- Sandbox context handed to `complete_url` (lines 131-142); all
    sandboxes are first rescoped to file://localhost. -/
structure SandboxContext where
  pwd : String
  task : String
  pilot : String
  session : String
  resource : String
  endpoint : String
  deriving DecidableEq, Repr

/-- Rescoping of a sandbox URL to file://localhost (lines 119-129). -/
def rescope (u : Url) : Url :=
  { u with schema := "file", host := "localhost" }

/-- The shared source/target context built in `_handle_task` (the code
    builds two identical dicts). -/
def sandboxContext (task : STask) : SandboxContext :=
  { pwd := (rescope task.task_sandbox).str
    task := (rescope task.task_sandbox).str
    pilot := (rescope task.pilot_sandbox).str
    session := (rescope task.session_sandbox).str
    resource := (rescope task.resource_sandbox).str
    endpoint := (rescope task.endpoint_fs).str }

/-- Model of the URL resolver `complete_url(path, context, log)` from
    staging_directives.py (not among the analysed sources): an arbitrary
    total resolver, quantified over in the theorems. -/
def UrlResolver : Type := String → SandboxContext → Url

/-- Filesystem operations the component can attempt. -/
inductive FsOp
  | mkdirRec (dir : String)
  | copytree (src tgt : String)
  | copyfile (src tgt : String)
  | symlink (src tgt : String)
  | move (src tgt : String)
  | extractTar (tarball : String) (path : String)
  deriving DecidableEq, Repr

/-- Outcome of one attempted filesystem operation.  `errENOTDIR` mirrors
    an OSError with errno ENOTDIR, which `shutil.copytree` raises when the
    source is a file and which the COPY branch catches (lines 192-198);
    `err` is any other exception. -/
inductive OpOutcome
  | ok
  | errENOTDIR
  | err (msg : String)
  deriving DecidableEq, Repr

/-- Filesystem oracle: path predicates consulted by the component and the
    outcome of each operation it may attempt. -/
structure FsOracle where
  pathExists : String → Bool
  isDir : String → Bool
  isFile : String → Bool
  opRun : FsOp → OpOutcome

/-- Model of os.path.basename: the part after the last slash. -/
def basename (p : String) : String :=
  (p.splitOn "/").getLastD ""

/-- Model of os.path.dirname: the part before the last slash ("/" when
    only the root remains, "" when there is no slash). -/
def dirname (p : String) : String :=
  let parts := p.splitOn "/"
  if parts.length ≤ 1 then ""
  else
    let d := String.intercalate "/" parts.dropLast
    if d = "" then "/" else d

/-- Model of os.path.join for the shapes used here (second argument is a
    plain basename). -/
def pathJoin (a b : String) : String :=
  if a.endsWith "/" then a ++ b else a ++ "/" ++ b

/-- Attempt one filesystem operation, returning the attempted trace and
    the raised error, if any (where the caller does not catch ENOTDIR it
    is re-raised like any other OSError). -/
def runOne (fs : FsOracle) (op : FsOp) : List FsOp × Option String :=
  match fs.opRun op with
  | OpOutcome.ok => ([op], none)
  | OpOutcome.errENOTDIR => ([op], some "ENOTDIR")
  | OpOutcome.err e => ([op], some e)

/-- Sequencing of two traced, fallible computations: the second runs only
    when the first raised nothing. -/
def seqOps (a : List FsOp × Option String) (k : Unit → List FsOp × Option String) :
    List FsOp × Option String :=
  match a with
  | (tr, some e) => (tr, some e)
  | (tr, none) =>
    let b := k ()
    (tr ++ b.1, b.2)

/-- The COPY action, lines 191-198: try copytree; when it raises ENOTDIR,
    fall back to a plain file copy; re-raise anything else. -/
def copyAction (fs : FsOracle) (src tgt : String) : List FsOp × Option String :=
  match fs.opRun (FsOp.copytree src tgt) with
  | OpOutcome.ok => ([FsOp.copytree src tgt], none)
  | OpOutcome.err e => ([FsOp.copytree src tgt], some e)
  | OpOutcome.errENOTDIR =>
    let b := runOne fs (FsOp.copyfile src tgt)
    (FsOp.copytree src tgt :: b.1, b.2)

/-- The LINK action, lines 200-210: when the source is a file and the
    target a directory, link under the source basename inside the target;
    otherwise link to the target path. -/
def linkAction (fs : FsOracle) (src tgt : String) : List FsOp × Option String :=
  if fs.isFile src ∧ fs.isDir tgt then
    runOne fs (FsOp.symlink src (tgt ++ "/" ++ basename src))
  else
    runOne fs (FsOp.symlink src tgt)

/-- Handling of one actionable staging directive by `_handle_task`
    (lines 146-243).  Mirrors the control flow:

      * line 156: any action outside COPY/LINK/MOVE is skipped
        (`continue`) -- in particular TARBALL directives are skipped and
        the TARBALL branch of lines 227-241 is unreachable;
      * lines 164-172: empty target defaults to task:///basename(src);
        an existing directory target gets the source basename appended;
      * lines 175-182: URL resolution and the two schema asserts;
      * lines 185-189: the target parent directory is created when it
        differs from the task sandbox path;
      * lines 191-213: the action itself. -/
def handleSD (fs : FsOracle) (cu : UrlResolver) (task : STask)
    (sd : StagingDirective) : List FsOp × Option String :=
  if sd.action ∉ [SDAction.COPY, SDAction.LINK, SDAction.MOVE] then
    ([], none)
  else
    let ctx := sandboxContext task
    let tgt0 := sd.target
    let tgt1 :=
      if tgt0.trim = "" then "task:///" ++ basename sd.source
      else if fs.pathExists tgt0.trim ∧ fs.isDir tgt0.trim then
        pathJoin tgt0 (basename sd.source)
      else tgt0
    let src := cu sd.source ctx
    let tgt := cu tgt1 ctx
    if tgt.schema ≠ "file" then ([], some "staging tgt must be file://")
    else if src.schema ≠ "file" then ([], some "staging src expected as file://")
    else
      let tgtdir := dirname tgt.path
      let pre : List FsOp × Option String :=
        if tgtdir ≠ (rescope task.task_sandbox).path then
          runOne fs (FsOp.mkdirRec tgtdir)
        else ([], none)
      seqOps pre fun _ =>
        match sd.action with
        | SDAction.COPY => copyAction fs src.path tgt.path
        | SDAction.LINK => linkAction fs src.path tgt.path
        | SDAction.MOVE => runOne fs (FsOp.move src.path tgt.path)
        | SDAction.TRANSFER => ([], some "unsupported transfer")
        | SDAction.TARBALL =>
          runOne fs (FsOp.extractTar (dirname tgt.path ++ "/" ++ task.uid ++ ".tar") "/")

/-- The directive loop of `_handle_task`: directives are processed in
    order; an exception aborts the remaining directives of this task. -/
def handleTaskLoop (fs : FsOracle) (cu : UrlResolver) (task : STask) :
    List StagingDirective → List FsOp × Option String
  | [] => ([], none)
  | sd :: rest =>
    seqOps (handleSD fs cu task sd) fun _ => handleTaskLoop fs cu task rest

/-- The actionable directives of a task (lines 67-71): those whose action
    is LINK, COPY, MOVE or TARBALL. -/
def actionables (task : STask) : List StagingDirective :=
  task.input_staging.filter fun sd =>
    sd.action ∈ [SDAction.LINK, SDAction.COPY, SDAction.MOVE, SDAction.TARBALL]

/-- An advance call issued by the component: the tasks pushed (one bulk
    list) and the state they are advanced to. -/
structure Advance where
  tasks : List STask
  state : RPState
  deriving DecidableEq, Repr

/-- Result of `_work` on one batch: the advance calls in order and the
    attempted filesystem trace. -/
structure WorkResult where
  advances : List Advance
  trace : List FsOp
  deriving Repr

/-- The per-task half of `_work` (lines 82-93 together with the final
    advance of `_handle_task`, line 246): each staging task is handled
    individually; on success it is advanced to AGENT_SCHEDULING_PENDING,
    on an exception it is marked FAILED, the exception recorded, and it is
    advanced to TMGR_STAGING_OUTPUT_PENDING; the loop then continues with
    the next task. -/
def workLoop (fs : FsOracle) (cu : UrlResolver) :
    List (STask × List StagingDirective) → List Advance × List FsOp
  | [] => ([], [])
  | (task, acts) :: rest =>
    let r := handleTaskLoop fs cu task acts
    let adv :=
      match r.2 with
      | none => Advance.mk [task] RPState.AGENT_SCHEDULING_PENDING
      | some e =>
        Advance.mk [{ task with target_state := some RPState.FAILED,
                                exception := some e }]
          RPState.TMGR_STAGING_OUTPUT_PENDING
    let rec_ := workLoop fs cu rest
    (adv :: rec_.1, r.1 ++ rec_.2)

/-- `Default._work` on a batch (lines 54-93): the batch is partitioned
    into tasks without actionable directives (advanced directly to
    AGENT_SCHEDULING_PENDING as one bulk, when any) and tasks with
    actionable directives (handled one by one).  The single-pass
    partition of the Python loop is rendered as two order-preserving
    filters. -/
def work (fs : FsOracle) (cu : UrlResolver) (tasks : List STask) : WorkResult :=
  let no_staging_tasks := tasks.filter fun t => (actionables t).isEmpty
  let staging_tasks := tasks.filter fun t => ¬ (actionables t).isEmpty
  let bulk : List Advance :=
    if no_staging_tasks.isEmpty then []
    else [Advance.mk no_staging_tasks RPState.AGENT_SCHEDULING_PENDING]
  let r := workLoop fs cu (staging_tasks.map fun t => (t, actionables t))
  { advances := bulk ++ r.1, trace := r.2 }

end RadicalPilot

namespace RadicalPilot

/-! ## MPIExec launch method (launch_method/mpiexec.py)

    Embeds `MPIExec._init_from_scratch` (lines 32-80),
    `MPIExec._init_from_info` (lines 85-105), `get_launcher_env`
    (lines 127-136), `_get_rank_file` (lines 141-157), `_get_host_file`
    (lines 162-184), `get_launch_cmds` (lines 189-219) and `get_rank_cmd`
    (lines 224-236).

    Results of external probes (`ru.which`, `ru.get_hostname`,
    `self._get_mpi_info`, and the `--help | grep -- "-rf"` capability
    probe inside `get_launch_cmds`) are passed in as parameters. -/

/-- Python str.strip() at the character-list level: drop ASCII whitespace
    from both ends. -/
def isPySpace (c : Char) : Bool :=
  c = ' ' ∨ c = '\t' ∨ c = '\n' ∨ c = '\r' ∨ c = '\x0b' ∨ c = '\x0c'

/-- Model of str.strip(). -/
def pyStrip (s : String) : String :=
  String.mk (((s.data.dropWhile isPySpace).reverse.dropWhile isPySpace).reverse)

/-- Containment of one string in another (Python `in` on str). -/
def strContains (s pat : String) : Bool :=
  decide (pat.data <:+: s.data)

/-- Model of str.lower() at the character-list level (the core
    String.toLower is not kernel-reducible). -/
def pyLower (s : String) : String :=
  String.mk (s.data.map Char.toLower)

/-- One rank of a slot assignment: the node it is bound to and its core
    map (a list of core-index lists; the code reads entry 0). -/
structure RankSlot where
  node_name : String
  core_map : List (List Nat)
  deriving DecidableEq, Repr

/-- The slots attached to a placed task. -/
structure Slots where
  ranks : List RankSlot
  deriving DecidableEq, Repr

/-- The task fields `get_launch_cmds` reads. -/
structure LMTask where
  uid : String
  slots : Slots
  task_sandbox_path : String
  deriving DecidableEq, Repr

/-- One line of the rank file (lines 148-151):
    "rank I=NODE slots=C1,C2,...".  The code reads the rank's first
    core-map entry (`rank['core_map'][0]`); a placed rank's cores are that
    head entry, and on an empty core map Python would raise IndexError,
    so the model reads the head entry with default [] and the theorems
    assume placed tasks with non-empty core maps. -/
def rankFileLine (rank_id : Nat) (r : RankSlot) : String :=
  "rank " ++ toString rank_id ++ "=" ++ r.node_name ++ " slots=" ++
    String.intercalate "," ((r.core_map.headD []).map toString) ++ "\n"

/-- Content of the rank file accumulated by the loop of `_get_rank_file`. -/
def rankFileStr (ranks : List RankSlot) : String :=
  String.join ((ranks.enum.map fun p => rankFileLine p.1 p.2))

/-- Name of the rank file (line 153). -/
def rfName (sandbox uid : String) : String :=
  sandbox ++ "/" ++ uid ++ ".rf"

/-- Insert-or-add on an ordered association list; models the defaultdict
    accumulation of `_get_host_file` (Python dicts preserve insertion
    order). -/
def upsertCount (k : String) (n : Nat) :
    List (String × Nat) → List (String × Nat)
  | [] => [(k, n)]
  | (k', m) :: rest =>
    if k' = k then (k', m + n) :: rest else (k', m) :: upsertCount k n rest

/-- Per-host slot counts of `_get_host_file` (lines 169-171). -/
def hostSlots (ranks : List RankSlot) : List (String × Nat) :=
  ranks.foldl (fun acc r => upsertCount r.node_name r.core_map.length acc) []

/-- Content of the host file in the simple form used by
    `get_launch_cmds` (line 174): the host names, one per line. -/
def hostFileStr (ranks : List RankSlot) : String :=
  String.intercalate "\n" ((hostSlots ranks).map fun p => p.1) ++ "\n"

/-- Name of the host file (line 180). -/
def hfName (sandbox uid : String) : String :=
  sandbox ++ "/" ++ uid ++ ".hf"

/-- First-occurrence deduplication of the rank node names; models
    `set([r['node_name'] for r in slots['ranks']])` of line 204 up to
    element order, which Python leaves unspecified and on which no claim
    depends. -/
def dedupHosts : List String → List String
  | [] => []
  | h :: t => if h ∈ t then dedupHosts t else h :: dedupHosts t

/-- A file written by the launch method while building the command. -/
structure WrittenFile where
  name : String
  content : String
  deriving DecidableEq, Repr

/-- `MPIExec.get_launch_cmds` (lines 189-219).  `has_rf` is the result of
    the `--help | grep -- "-rf"` capability probe; `command` and
    `omplace` are the corresponding launch-method fields.  Returns none
    when the `slots.ranks` assert of line 195 fires, otherwise the final
    (stripped) command line and the placement file written. -/
def getLaunchCmds (has_rf : Bool) (command omplace : String)
    (task : LMTask) (exec_path : String) :
    Option (String × List WrittenFile) :=
  if task.slots.ranks.isEmpty then none
  else
    let cmd_options0 := "-np " ++ toString task.slots.ranks.length ++ " "
    let placed :
        String × List WrittenFile :=
      if has_rf then
        let rf := rfName task.task_sandbox_path task.uid
        (cmd_options0 ++
           "-H " ++
             String.intercalate ","
               (dedupHosts (task.slots.ranks.map fun r => r.node_name)) ++ " " ++
           "-rf " ++ rf,
         [{ name := rf, content := rankFileStr task.slots.ranks }])
      else
        let hf := hfName task.task_sandbox_path task.uid
        let cores_per_rank :=
          ((task.slots.ranks.headD ⟨"", []⟩).core_map.headD []).length
        (cmd_options0 ++
           "--hostfile " ++ hf ++ " " ++
           "--depth=" ++ toString cores_per_rank ++ " --cpu-bind depth",
         [{ name := hf, content := hostFileStr task.slots.ranks }])
    let cmd_options :=
      if omplace = "" then placed.1 else placed.1 ++ " " ++ omplace
    some (pyStrip (command ++ " " ++ cmd_options ++ " " ++ exec_path),
          placed.2)

/-- Serialised launch-method information produced by
    `_init_from_scratch` and consumed by `_init_from_info`. -/
structure LMInfo where
  env : List (String × String)
  env_sh : String
  command : String
  mpt : Bool
  rsh : Bool
  ccmrun : String
  dplace : String
  omplace : String
  mpi_version : String
  mpi_flavor : String
  deriving DecidableEq, Repr

/-- Results of the external probes `_init_from_scratch` runs: `ru.which`
    for the mpiexec executable and the optional ccmrun/dplace wrappers
    (empty string models a failed lookup, i.e. Python None),
    `ru.get_hostname`, and `self._get_mpi_info` (version and flavor). -/
structure MPIExecProbe where
  which_mpiexec : String
  which_ccmrun : String := ""
  which_dplace : String := ""
  hostname : String := ""
  mpi_version : String := ""
  mpi_flavor : String := ""
  deriving DecidableEq, Repr

/-- Instance state `_init_from_info` fills in (the `self._*` fields of
    MPIExec). -/
structure MPIExecState where
  env : List (String × String)
  env_sh : String
  command : String
  mpt : Bool
  rsh : Bool
  ccmrun : String
  dplace : String
  omplace : String
  mpi_version : String
  mpi_flavor : String
  deriving DecidableEq, Repr

/-- `MPIExec._init_from_scratch` (lines 32-80): static probing captured
    into lm_info.  Raises (models ValueError / failed assert) when the
    mpiexec lookup fails or a required wrapper is missing. -/
def initFromScratch (name : String) (env : List (String × String))
    (env_sh : String) (probe : MPIExecProbe) : Except String LMInfo :=
  if probe.which_mpiexec = "" then
    Except.error "mpiexec not found - cannot start MPI tasks"
  else if strContains (pyLower name) "_ccmrun" ∧ probe.which_ccmrun = "" then
    Except.error "assert: ccmrun not found"
  else if strContains (pyLower name) "_dplace" ∧ probe.which_dplace = "" then
    Except.error "assert: dplace not found"
  else
    let cheyenne := strContains probe.hostname "cheyenne"
    Except.ok
      { env := env
        env_sh := env_sh
        command := probe.which_mpiexec
        mpt := strContains (pyLower name) "_mpt" ∨ cheyenne
        rsh := strContains (pyLower name) "_rsh"
        ccmrun := if strContains (pyLower name) "_ccmrun" then probe.which_ccmrun else ""
        dplace := if strContains (pyLower name) "_dplace" then probe.which_dplace else ""
        omplace := if cheyenne then "omplace" else ""
        mpi_version := probe.mpi_version
        mpi_flavor := probe.mpi_flavor }

/-- `MPIExec._init_from_info` (lines 85-105): rehydration of the instance
    state from lm_info.  The command assert of line 91 is modelled as an
    error; `omplace` is normalised (lines 101-105: empty stays empty, any
    truthy value becomes the literal "omplace"). -/
def initFromInfo (i : LMInfo) : Except String MPIExecState :=
  if i.command = "" then Except.error "assert: command"
  else
    Except.ok
      { env := i.env
        env_sh := i.env_sh
        command := i.command
        mpt := i.mpt
        rsh := i.rsh
        dplace := i.dplace
        ccmrun := i.ccmrun
        omplace := if i.omplace = "" then "" else "omplace"
        mpi_version := i.mpi_version
        mpi_flavor := i.mpi_flavor }

/-- Verbatim view of lm_info as instance state: every serialised field
    taken unchanged.  The claim `init_from_info(init_from_scratch())` is
    the identity is expressed as `initFromInfo` agreeing with this
    verbatim copy on every lm_info that `initFromScratch` produces. -/
def mkStateVerbatim (i : LMInfo) : MPIExecState :=
  { env := i.env
    env_sh := i.env_sh
    command := i.command
    mpt := i.mpt
    rsh := i.rsh
    dplace := i.dplace
    ccmrun := i.ccmrun
    omplace := i.omplace
    mpi_version := i.mpi_version
    mpi_flavor := i.mpi_flavor }

/-- `MPIExec.get_launcher_env` (lines 127-136). -/
def getLauncherEnv (st : MPIExecState) : List String :=
  [". $RP_PILOT_SANDBOX/" ++ st.env_sh] ++
    (if st.mpt then ["export MPI_SHEPHERD=true"] else [])

/-- `MPIExec.get_rank_cmd` (lines 224-236). -/
def getRankCmd (st : MPIExecState) : String :=
  "test -z \"$MPI_RANK\"  || export RP_RANK=$MPI_RANK\n" ++
  "test -z \"$PMIX_RANK\" || export RP_RANK=$PMIX_RANK\n" ++
  "test -z \"$PMI_ID\"    || export RP_RANK=$PMI_ID\n" ++
  "test -z \"$PMI_RANK\"  || export RP_RANK=$PMI_RANK\n" ++
  (if st.mpt then "test -z \"$MPT_MPI_RANK\" || export RP_RANK=$MPT_MPI_RANK\n"
   else "")

/-- `get_launch_cmds` as observed through the instance state. -/
def getLaunchCmdsSt (st : MPIExecState) (has_rf : Bool) (task : LMTask)
    (exec_path : String) : Option (String × List WrittenFile) :=
  getLaunchCmds has_rf st.command st.omplace task exec_path

end RadicalPilot

namespace RadicalPilot

/-! ## Session constructor role/uid handling (session.py)

    Embeds the uid/role logic of `Session.__init__` (lines 171-220).
    After the initial assignments, line 177 (`self._uid = uid`) leaves
    `self._uid` equal to the constructor argument (overriding the
    generated id of line 174); then:

      * a `primary` session generates an id when `self._uid` is falsy
        (lines 194-198);
      * `agent_0`, `agent_n` and `default` sessions raise ValueError when
        `self._uid` is truthy (lines 203-216, message "non-primary
        sessions need a UID");
      * any other role string falls through without a check.

    Python truthiness on an optional string: None and "" are falsy. -/

/-- Python truthiness of an optional string. -/
def truthy : Option String → Bool
  | none => false
  | some s => s ≠ ""

/-- Outcome of the uid/role part of the Session constructor: the uid the
    session ends up with, or the raised ValueError. -/
inductive SessionOutcome
  | ok (uid : Option String) (role : String)
  | valueError (msg : String)
  deriving DecidableEq, Repr

/-- Whether the outcome is a raised ValueError. -/
def SessionOutcome.isError : SessionOutcome → Bool
  | SessionOutcome.valueError _ => true
  | SessionOutcome.ok _ _ => false

/-- The uid/role logic of `Session.__init__`; `gen` is the id
    `ru.generate_id('rp.session', ...)` would produce. -/
def sessionInitUid (uid : Option String) (role : String) (gen : String) :
    SessionOutcome :=
  if role = "primary" then
    SessionOutcome.ok (if truthy uid then uid else some gen) role
  else if role = "agent_0" then
    if truthy uid then SessionOutcome.valueError "non-primary sessions need a UID"
    else SessionOutcome.ok uid role
  else if role = "agent_n" ∨ role = "default" then
    if truthy uid then SessionOutcome.valueError "non-primary sessions need a UID"
    else SessionOutcome.ok uid role
  else
    SessionOutcome.ok uid role

end RadicalPilot

namespace RadicalPilot

/-! ## Raptor.submit_workers (raptor_tasks.py, lines 35-59)

    Embeds the per-description mutation loop of `submit_workers`.  The
    environment dict is modelled as an ordered association list; setting
    a key replaces the first binding or appends. -/

/-- Mode constant RAPTOR_WORKER.  Modelled from the spec: the constant is
    defined in task_description.py, which is not among the analysed
    sources; the spec lists `RAPTOR_WORKER` among the recognised task
    modes, and only its identity matters here. -/
def RAPTOR_WORKER : String := "raptor.worker"

/-- A task description as read and mutated by `submit_workers`. -/
structure TaskDescr where
  uid : Option String := none
  executable : Option String := none
  named_env : Option String := none
  raptor_file : Option String := none
  raptor_class : Option String := none
  environment : List (String × String) := []
  mode : String := ""
  arguments : List String := []
  deriving DecidableEq, Repr

/-- Python `x or d` on an optional string field (None and "" are falsy). -/
def pyOrStr (v : Option String) (d : String) : String :=
  match v with
  | none => d
  | some s => if s = "" then d else s

/-- Setting a key in the environment dict. -/
def envSet (k v : String) : List (String × String) → List (String × String)
  | [] => [(k, v)]
  | (k', v') :: rest =>
    if k' = k then (k, v) :: rest else (k', v') :: envSet k v rest

/-- Lookup of a key in the environment dict. -/
def envGet (k : String) (env : List (String × String)) : Option String :=
  match env with
  | [] => none
  | (k', v') :: rest => if k' = k then some v' else envGet k rest

/-- The mutation `submit_workers` applies to one worker description
    (lines 39-57); `master_uid` is `self.uid` of the Raptor master. -/
def submitWorkerTD (master_uid : String) (td : TaskDescr) : TaskDescr :=
  let raptor_file := pyOrStr td.raptor_file ""
  let raptor_class := pyOrStr td.raptor_class "DefaultWorker"
  let td1 :=
    if truthy td.uid then td
    else { td with uid := some (master_uid ++ ".worker") }
  let td2 :=
    if truthy td1.executable then td1
    else { td1 with executable := some "radical-pilot-raptor-worker" }
  let td3 :=
    if truthy td2.named_env then td2
    else { td2 with named_env := some "rp" }
  { td3 with
      environment := envSet "PYTHONUNBUFFERED" "1" td3.environment
      mode := RAPTOR_WORKER
      uid := some "raptor_worker.0000"
      arguments := [raptor_file, raptor_class, master_uid] }

/-- `Raptor.submit_workers` over a batch of descriptions (the final
    `self._tmgr.submit_workers(descriptions)` hands the mutated list on
    unchanged). -/
def submitWorkers (master_uid : String) (tds : List TaskDescr) :
    List TaskDescr :=
  tds.map (submitWorkerTD master_uid)

end RadicalPilot

namespace RadicalPilot

/-! ## Concrete inputs for witnesses and counterexamples -/

/-- A pending unit document. -/
def c2Unit : UnitDoc :=
  { uid := "unit.000000", type := "unit", pilot := "pilot.0000",
    control := "agent_pending" }

/-- A second pending unit document arriving after the first pull cycle. -/
def c2Fresh : UnitDoc :=
  { uid := "unit.000001", type := "unit", pilot := "pilot.0000",
    control := "agent_pending" }

/-- A trivial filesystem oracle: nothing exists, every operation
    succeeds. -/
def fsTrivial : FsOracle :=
  { pathExists := fun _ => false
    isDir := fun _ => false
    isFile := fun _ => false
    opRun := fun _ => OpOutcome.ok }

/-- A resolver that maps every URL to a file URL with a fixed path. -/
def cuFile : UrlResolver :=
  fun _ _ => { schema := "file", host := "localhost", path := "/data/x" }

/-- A resolver whose targets are not file URLs, making the schema assert
    of `_handle_task` fire. -/
def cuBad : UrlResolver :=
  fun _ _ => { schema := "srm", host := "proxy", path := "/data/x" }

/-- A file://localhost sandbox URL. -/
def sbUrl (p : String) : Url :=
  { schema := "file", host := "localhost", path := p }

/-- The task of the TARBALL failing input: one TARBALL staging directive
    (spec scenario: a tarball `task.000000.tar` staged next to the
    target). -/
def c1Task : STask :=
  { uid := "task.000000"
    input_staging := [{ action := SDAction.TARBALL,
                        uid := "sd.0000",
                        source := "pilot:///abc.tar",
                        target := "pilot:///abc" }]
    task_sandbox := sbUrl "/s/p/t"
    pilot_sandbox := sbUrl "/s/p"
    session_sandbox := sbUrl "/s"
    resource_sandbox := sbUrl "/r"
    endpoint_fs := sbUrl "/" }

/-- A task with one COPY staging directive. -/
def c3Task : STask :=
  { uid := "task.000001"
    input_staging := [{ action := SDAction.COPY,
                        uid := "sd.0001",
                        source := "pilot:///input.dat",
                        target := "" }]
    task_sandbox := sbUrl "/s/p/t1"
    pilot_sandbox := sbUrl "/s/p"
    session_sandbox := sbUrl "/s"
    resource_sandbox := sbUrl "/r"
    endpoint_fs := sbUrl "/" }

/-- A task with no staging directives at all. -/
def c4Task : STask :=
  { uid := "task.000002"
    input_staging := []
    task_sandbox := sbUrl "/s/p/t2"
    pilot_sandbox := sbUrl "/s/p"
    session_sandbox := sbUrl "/s"
    resource_sandbox := sbUrl "/r"
    endpoint_fs := sbUrl "/" }

/-- A two-rank slot assignment on two nodes. -/
def c6Task : LMTask :=
  { uid := "task.000003"
    slots := { ranks := [{ node_name := "node1", core_map := [[0, 1]] },
                         { node_name := "node2", core_map := [[2, 3]] }] }
    task_sandbox_path := "/s/p/t3" }

/-- A concrete probe result for the MPIExec witness. -/
def c7Probe : MPIExecProbe :=
  { which_mpiexec := "/usr/bin/mpiexec"
    hostname := "cheyenne3"
    mpi_version := "4.1"
    mpi_flavor := "OMPI" }

end RadicalPilot

namespace RadicalPilot

/-- The lm_info `initFromScratch` produces for the witness probe. -/
def c7Info : LMInfo :=
  { env := [], env_sh := "env.sh", command := "/usr/bin/mpiexec",
    mpt := true, rsh := false, ccmrun := "", dplace := "",
    omplace := "omplace", mpi_version := "4.1", mpi_flavor := "OMPI" }

end RadicalPilot

namespace RadicalPilot

/-! # Theorems -/

/-! ## Helper lemmas -/

/-- Truthiness of an optional string spelt out. -/
theorem truthy_eq_true_iff (uid : Option String) :
    truthy uid = true ↔ ∃ s, uid = some s ∧ s ≠ "" := by
  cases uid <;> simp [truthy]

/-- Setting then reading an environment key yields the written value. -/
theorem envGet_envSet (k v : String) (env : List (String × String)) :
    envGet k (envSet k v env) = some v := by
  induction env with
  | nil => simp [envSet, envGet]
  | cons p rest ih =>
    obtain ⟨k', v'⟩ := p
    by_cases hk : k' = k
    · simp [envSet, envGet, hk]
    · simp [envSet, envGet, hk, ih]

end RadicalPilot

namespace RadicalPilot

/-! ## C5 -- Agent_0 final pilot state -/

/-- C5 counterexample: the recorded terminal cause 'sys.exit' is mapped to
    CANCELED, not FAILED, contradicting the claim that every cause other
    than 'timeout' and 'cancel' yields FAILED. -/
theorem C5_sysexit_counterexample :
    finalPilotState (some "sys.exit") = RPState.CANCELED ∧
    finalPilotState (some "sys.exit") ≠ RPState.FAILED := by
  decide

/-- C5 (amended): the final pilot state is a total function of the
    recorded terminal cause: 'timeout' yields DONE, 'cancel' and
    'sys.exit' yield CANCELED, and every other cause (including none)
    yields FAILED. -/
theorem C5_final_state_total (c : String)
    (h1 : c ≠ "timeout") (h2 : c ≠ "cancel") (h3 : c ≠ "sys.exit") :
    finalPilotState (some "timeout") = RPState.DONE ∧
    finalPilotState (some "cancel") = RPState.CANCELED ∧
    finalPilotState (some "sys.exit") = RPState.CANCELED ∧
    finalPilotState none = RPState.FAILED ∧
    finalPilotState (some c) = RPState.FAILED := by
  refine ⟨by decide, by decide, by decide, by decide, ?_⟩
  simp [finalPilotState, h1, h2, h3]

/-- Witness for C5_final_state_total at the cause 'power_failure'. -/
theorem C5_final_state_total_witness :
    finalPilotState (some "timeout") = RPState.DONE ∧
    finalPilotState (some "cancel") = RPState.CANCELED ∧
    finalPilotState (some "sys.exit") = RPState.CANCELED ∧
    finalPilotState none = RPState.FAILED ∧
    finalPilotState (some "power_failure") = RPState.FAILED :=
  C5_final_state_total "power_failure" (by decide) (by decide) (by decide)

/-! ## C9 -- Session constructor uid/role handling -/

/-- C9 counterexample: the empty string is a non-None uid argument, yet a
    non-primary (agent_0) session constructed with it does not raise
    ValueError -- the code tests truthiness, not None-ness. -/
theorem C9_empty_uid_counterexample :
    sessionInitUid (some "") "agent_0" "rp.session.0000" =
      SessionOutcome.ok (some "") "agent_0" ∧
    (sessionInitUid (some "") "agent_0" "rp.session.0000").isError = false := by
  decide

/-- C9 (amended): for the non-primary roles agent_0, agent_n and default,
    the constructor raises ValueError exactly when the uid argument is
    truthy (a non-empty string); None or an empty string proceed.  The
    primary role keeps a truthy uid and generates one otherwise. -/
theorem C9_nonprimary_uid_check (uid : Option String) (role gen : String)
    (hrole : role = "agent_0" ∨ role = "agent_n" ∨ role = "default") :
    ((sessionInitUid uid role gen).isError = true ↔
       ∃ s, uid = some s ∧ s ≠ "") ∧
    (truthy uid = true →
       sessionInitUid uid role gen =
         SessionOutcome.valueError "non-primary sessions need a UID") ∧
    (truthy uid = false →
       sessionInitUid uid role gen = SessionOutcome.ok uid role) ∧
    sessionInitUid uid "primary" gen =
      SessionOutcome.ok (if truthy uid then uid else some gen) "primary" := by
  have hprim : sessionInitUid uid "primary" gen =
      SessionOutcome.ok (if truthy uid then uid else some gen) "primary" := by
    simp [sessionInitUid]
  rcases hrole with h | h | h <;> subst h <;>
    cases htu : truthy uid <;>
      simp [sessionInitUid, htu, hprim, SessionOutcome.isError,
            ← truthy_eq_true_iff]

/-- Witness for C9_nonprimary_uid_check with role agent_n and a truthy
    uid. -/
theorem C9_nonprimary_uid_check_witness :
    ((sessionInitUid (some "sid.0") "agent_n" "rp.session.0001").isError = true ↔
       ∃ s, (some "sid.0" : Option String) = some s ∧ s ≠ "") ∧
    (truthy (some "sid.0") = true →
       sessionInitUid (some "sid.0") "agent_n" "rp.session.0001" =
         SessionOutcome.valueError "non-primary sessions need a UID") ∧
    (truthy (some "sid.0") = false →
       sessionInitUid (some "sid.0") "agent_n" "rp.session.0001" =
         SessionOutcome.ok (some "sid.0") "agent_n") ∧
    sessionInitUid (some "sid.0") "primary" "rp.session.0001" =
      SessionOutcome.ok
        (if truthy (some "sid.0") then some "sid.0" else some "rp.session.0001")
        "primary" :=
  C9_nonprimary_uid_check (some "sid.0") "agent_n" "rp.session.0001" (Or.inr (Or.inl rfl))

end RadicalPilot

namespace RadicalPilot

/-! ## C10 -- Raptor.submit_workers -/

/-- C10: every submitted worker description has mode RAPTOR_WORKER, the
    environment entry PYTHONUNBUFFERED set to "1", arguments
    [raptor_file, raptor_class, master uid] (with the code's defaults for
    falsy fields), and the constant uid "raptor_worker.0000" regardless
    of any caller-provided uid -- hence all workers of a batch share one
    identical uid. -/
theorem C10_submit_workers (master_uid : String) (tds : List TaskDescr)
    (td : TaskDescr) (h : td ∈ tds) :
    (submitWorkerTD master_uid td).mode = RAPTOR_WORKER ∧
    envGet "PYTHONUNBUFFERED" (submitWorkerTD master_uid td).environment =
      some "1" ∧
    (submitWorkerTD master_uid td).uid = some "raptor_worker.0000" ∧
    (submitWorkerTD master_uid td).arguments =
      [pyOrStr td.raptor_file "", pyOrStr td.raptor_class "DefaultWorker",
       master_uid] ∧
    submitWorkerTD master_uid td ∈ submitWorkers master_uid tds ∧
    ∀ a ∈ submitWorkers master_uid tds, ∀ b ∈ submitWorkers master_uid tds,
      a.uid = b.uid := by
  refine ⟨rfl, ?_, rfl, rfl, List.mem_map_of_mem _ h, ?_⟩
  · exact envGet_envSet _ _ _
  · intro a ha b hb
    rcases List.mem_map.mp ha with ⟨ta, _, rfl⟩
    rcases List.mem_map.mp hb with ⟨tb, _, rfl⟩
    rfl

/-- Witness for C10_submit_workers on a batch of two descriptions, one of
    which carries a caller-provided uid. -/
theorem C10_submit_workers_witness :
    (submitWorkerTD "master.0000"
        { uid := some "my_uid", raptor_file := some "m.py" }).mode =
      RAPTOR_WORKER ∧
    envGet "PYTHONUNBUFFERED"
        (submitWorkerTD "master.0000"
          { uid := some "my_uid", raptor_file := some "m.py" }).environment =
      some "1" ∧
    (submitWorkerTD "master.0000"
        { uid := some "my_uid", raptor_file := some "m.py" }).uid =
      some "raptor_worker.0000" ∧
    (submitWorkerTD "master.0000"
        { uid := some "my_uid", raptor_file := some "m.py" }).arguments =
      [pyOrStr (some "m.py") "", pyOrStr none "DefaultWorker",
       "master.0000"] ∧
    submitWorkerTD "master.0000" { uid := some "my_uid", raptor_file := some "m.py" } ∈
      submitWorkers "master.0000"
        [{ uid := some "my_uid", raptor_file := some "m.py" }, {}] ∧
    ∀ a ∈ submitWorkers "master.0000"
        [{ uid := some "my_uid", raptor_file := some "m.py" }, {}],
      ∀ b ∈ submitWorkers "master.0000"
          [{ uid := some "my_uid", raptor_file := some "m.py" }, {}],
        a.uid = b.uid :=
  C10_submit_workers "master.0000"
    [{ uid := some "my_uid", raptor_file := some "m.py" }, {}]
    { uid := some "my_uid", raptor_file := some "m.py" }
    (by decide)

end RadicalPilot

namespace RadicalPilot

/-! ## C8 -- Agent_0 command drain -/

/-- C8 counterexample: a drained command with verb 'cancel_tasks' (the
    verb the claim names) is ignored by `_check_commands`: no message is
    published, no state changes, and the drain continues -- the code's
    task-cancel verb is 'cancel_units'. -/
theorem C8_cancel_tasks_counterexample :
    checkCommands "pmgr.0000"
        [{ cmd := "cancel_tasks", arg := { uids := ["task.000000"] } }]
        Agent0Effects.init =
      (Agent0Effects.init, true) ∧
    (checkCommands "pmgr.0000"
        [{ cmd := "cancel_tasks", arg := { uids := ["task.000000"] } }]
        Agent0Effects.init).1.published = [] := by
  decide

/-- C8 (amended): processing one drained command: 'cancel_pilot' publishes
    exactly a 'terminate' message on the control pubsub, records final
    cause 'cancel', stops Agent-0 and ends the drain; 'cancel_units'
    (not 'cancel_tasks') publishes a 'cancel_units' message carrying the
    argument; 'heartbeat' whose argument names the owning pilot manager
    only refreshes that manager's heartbeat; any other verb leaves the
    state unchanged. -/
theorem C8_command_semantics (pmgr : String) (arg : CmdArg)
    (st : Agent0Effects) (c : String)
    (hc1 : c ≠ "heartbeat") (hc2 : c ≠ "cancel_pilot")
    (hc3 : c ≠ "cancel_units") :
    checkCommandsStep pmgr { cmd := "cancel_pilot", arg := arg } st =
      ({ st with
          published := st.published ++ [(CONTROL_PUBSUB, ⟨"terminate", none⟩)],
          final_cause := some "cancel",
          stopped := true }, false) ∧
    checkCommandsStep pmgr { cmd := "cancel_units", arg := arg } st =
      ({ st with
          published := st.published ++
            [(CONTROL_PUBSUB, ⟨"cancel_units", some arg⟩)] }, true) ∧
    (arg.pmgr = some pmgr →
      checkCommandsStep pmgr { cmd := "heartbeat", arg := arg } st =
        ({ st with beats := st.beats ++ [pmgr] }, true)) ∧
    checkCommandsStep pmgr { cmd := c, arg := arg } st = (st, true) := by
  refine ⟨?_, ?_, ?_, ?_⟩
  · simp [checkCommandsStep]
  · simp [checkCommandsStep]
  · intro hp; simp [checkCommandsStep, hp]
  · simp [checkCommandsStep, hc1, hc2, hc3]

/-- Witness for C8_command_semantics with the unknown verb
    'slot_release'. -/
theorem C8_command_semantics_witness :
    checkCommandsStep "pmgr.0000"
        { cmd := "cancel_pilot", arg := { pmgr := some "pmgr.0000" } }
        Agent0Effects.init =
      ({ Agent0Effects.init with
          published := Agent0Effects.init.published ++
            [(CONTROL_PUBSUB, ⟨"terminate", none⟩)],
          final_cause := some "cancel",
          stopped := true }, false) ∧
    checkCommandsStep "pmgr.0000"
        { cmd := "cancel_units", arg := { pmgr := some "pmgr.0000" } }
        Agent0Effects.init =
      ({ Agent0Effects.init with
          published := Agent0Effects.init.published ++
            [(CONTROL_PUBSUB,
              ⟨"cancel_units", some { pmgr := some "pmgr.0000" }⟩)] }, true) ∧
    (({ pmgr := some "pmgr.0000" } : CmdArg).pmgr = some "pmgr.0000" →
      checkCommandsStep "pmgr.0000"
          { cmd := "heartbeat", arg := { pmgr := some "pmgr.0000" } }
          Agent0Effects.init =
        ({ Agent0Effects.init with
            beats := Agent0Effects.init.beats ++ ["pmgr.0000"] }, true)) ∧
    checkCommandsStep "pmgr.0000"
        { cmd := "slot_release", arg := { pmgr := some "pmgr.0000" } }
        Agent0Effects.init = (Agent0Effects.init, true) :=
  C8_command_semantics "pmgr.0000" { pmgr := some "pmgr.0000" }
    Agent0Effects.init "slot_release" (by decide) (by decide) (by decide)

end RadicalPilot

namespace RadicalPilot

/-! ## C2 -- Agent_0 unit pull cycle -/

/-- The uids of the advanced units of one pull cycle are the uids of the
    documents matching the pull query. -/
theorem checkUnitsCb_advanced_uids (collapse : List String → String)
    (pid : String) (s : List UnitDoc) :
    (checkUnitsCb collapse pid s).advanced.map UnitDoc.uid =
      (s.filter (unitQueryMatch pid)).map UnitDoc.uid := by
  unfold checkUnitsCb
  by_cases he : (s.filter (unitQueryMatch pid)).isEmpty
  · rw [List.isEmpty_iff] at he
    simp [he]
  · simp [he, List.map_map, Function.comp]

/-- Every advanced unit of a pull cycle stems from a document matching
    the pull query. -/
theorem checkUnitsCb_advanced_mem (collapse : List String → String)
    (pid : String) (s : List UnitDoc) (v : UnitDoc)
    (hv : v ∈ (checkUnitsCb collapse pid s).advanced) :
    ∃ w ∈ s, unitQueryMatch pid w = true ∧ v.uid = w.uid := by
  unfold checkUnitsCb at hv
  by_cases he : (s.filter (unitQueryMatch pid)).isEmpty <;> simp [he] at hv
  rcases hv with ⟨w, ⟨hws, hwm⟩, rfl⟩
  exact ⟨w, hws, hwm, rfl⟩

/-- Documents touched by the control update carry the new control
    value. -/
theorem updateControl_control (uids : List String) (c : String)
    (store : List UnitDoc) (w : UnitDoc)
    (hw : w ∈ updateControl uids c store)
    (htype : w.type = "unit") (huid : w.uid ∈ uids) :
    w.control = c := by
  rcases List.mem_map.mp hw with ⟨u, hu, hwu⟩
  subst hwu
  revert htype huid
  by_cases h : u.type = "unit" ∧ u.uid ∈ uids
  · intro _ _
    simp [h]
  · intro htype huid
    rw [if_neg h] at htype huid ⊢
    exact absurd ⟨htype, huid⟩ h

/-- C2 counterexample: on a mailbox holding one pending unit, the pull
    cycle issues a find (read) first and a separate multi update second;
    its operation trace is not the single atomic find-and-modify the
    claim asserts, and the read precedes the update. -/
theorem C2_find_then_update_counterexample :
    (checkUnitsCb (fun _ => "AGENT_STAGING_INPUT_PENDING") "pilot.0000"
        [c2Unit]).trace =
      [DbOp.findOp "unit" "pilot.0000" "agent_pending",
       DbOp.updateOp ["unit.000000"] "agent" true] ∧
    ¬ atomicClaimTrace "pilot.0000"
        (checkUnitsCb (fun _ => "AGENT_STAGING_INPUT_PENDING") "pilot.0000"
          [c2Unit]).trace := by
  constructor
  · rfl
  · rw [atomicClaimTrace]
    decide

/-- C2 (amended): the pull cycle claims pending units by a find followed
    by a separate multi update setting control := 'agent', completed
    before the cycle ends; hence every claimed unit carries control
    'agent', and a subsequent pull cycle -- even after further units
    arrived -- never claims a unit uid claimed by the previous cycle. -/
theorem C2_no_reclaim_across_cycles (collapse : List String → String)
    (pid : String) (store fresh : List UnitDoc)
    (hfresh : ∀ f ∈ fresh,
      f.uid ∉ (checkUnitsCb collapse pid store).advanced.map UnitDoc.uid) :
    (∀ u ∈ (checkUnitsCb collapse pid store).advanced, u.control = "agent") ∧
    ∀ v ∈ (checkUnitsCb collapse pid
            ((checkUnitsCb collapse pid store).store ++ fresh)).advanced,
      v.uid ∉ (checkUnitsCb collapse pid store).advanced.map UnitDoc.uid := by
  constructor
  · intro u hu
    unfold checkUnitsCb at hu
    by_cases he : (store.filter (unitQueryMatch pid)).isEmpty <;>
      simp [he] at hu
    rcases hu with ⟨w, hw, rfl⟩
    rfl
  · intro v hv hvmem
    rw [checkUnitsCb_advanced_uids] at hvmem
    by_cases he : (store.filter (unitQueryMatch pid)).isEmpty
    · rw [List.isEmpty_iff] at he
      rw [he] at hvmem
      simp at hvmem
    · have hstore : (checkUnitsCb collapse pid store).store =
          updateControl ((store.filter (unitQueryMatch pid)).map UnitDoc.uid)
            "agent" store := by
        unfold checkUnitsCb
        simp [he]
      rcases checkUnitsCb_advanced_mem collapse pid _ v hv with
        ⟨w, hwmem, hwq, hwuid⟩
      have hwq' := hwq
      simp only [unitQueryMatch, decide_eq_true_eq] at hwq'
      obtain ⟨hwtype, hwpilot, hwcontrol⟩ := hwq'
      rw [hwuid] at hvmem
      rcases List.mem_append.mp hwmem with hold | hnew
      · rw [hstore] at hold
        have := updateControl_control _ _ _ _ hold hwtype hvmem
        rw [this] at hwcontrol
        simp at hwcontrol
      · have := hfresh w hnew
        rw [checkUnitsCb_advanced_uids] at this
        exact this hvmem

/-- Witness for C2_no_reclaim_across_cycles: the first cycle claims
    unit.000000; the second cycle, fed a fresh pending unit.000001, does
    not claim unit.000000 again. -/
theorem C2_no_reclaim_across_cycles_witness :
    (∀ u ∈ (checkUnitsCb (fun _ => "X") "pilot.0000" [c2Unit]).advanced,
       u.control = "agent") ∧
    ∀ v ∈ (checkUnitsCb (fun _ => "X") "pilot.0000"
            ((checkUnitsCb (fun _ => "X") "pilot.0000" [c2Unit]).store ++
              [c2Fresh])).advanced,
      v.uid ∉ (checkUnitsCb (fun _ => "X") "pilot.0000"
                [c2Unit]).advanced.map UnitDoc.uid :=
  C2_no_reclaim_across_cycles (fun _ => "X") "pilot.0000" [c2Unit] [c2Fresh]
    (by decide)

end RadicalPilot

namespace RadicalPilot

/-! ## C1, C3, C4 -- staging-input component -/

/-- Boolean emptiness of a list spelt out. -/
theorem listIsEmpty_iff {α : Type} (l : List α) : l.isEmpty = true ↔ l = [] := by
  cases l <;> simp

/-- Filtering twice with the same predicate filters once. -/
theorem filter_idem {α : Type} (p : α → Bool) (l : List α) :
    (l.filter p).filter p = l.filter p := by
  induction l with
  | nil => rfl
  | cons a t ih =>
    by_cases hp : p a <;> simp [List.filter_cons, hp, ih]

/-- A TARBALL staging directive is skipped by the directive loop of
    `_handle_task`: line 156 (`action not in [COPY, LINK, MOVE]`)
    continues before the TARBALL branch of lines 227-241 can run, so no
    filesystem operation is attempted and nothing is raised. -/
theorem handleSD_tarball_skip (fs : FsOracle) (cu : UrlResolver)
    (task : STask) (sd : StagingDirective) (h : sd.action = SDAction.TARBALL) :
    handleSD fs cu task sd = ([], none) := by
  simp [handleSD, h]

/-- A task whose directive handling raises is advanced as FAILED to
    TMGR_STAGING_OUTPUT_PENDING by the per-task loop. -/
theorem workLoop_mem_failed (fs : FsOracle) (cu : UrlResolver)
    (pairs : List (STask × List StagingDirective)) (task : STask)
    (acts : List StagingDirective) (e : String)
    (h : (task, acts) ∈ pairs)
    (he : (handleTaskLoop fs cu task acts).2 = some e) :
    Advance.mk [{ task with target_state := some RPState.FAILED,
                            exception := some e }]
        RPState.TMGR_STAGING_OUTPUT_PENDING ∈ (workLoop fs cu pairs).1 := by
  induction pairs with
  | nil => cases h
  | cons p rest ih =>
    rcases List.mem_cons.mp h with rfl | hmem
    · simp [workLoop, he]
    · rcases p with ⟨t', a'⟩
      simp only [workLoop]
      exact List.mem_cons_of_mem _ (ih hmem)

/-- Every task handed to the per-task loop surfaces in one of its
    advances (under its own uid). -/
theorem workLoop_mem_uid (fs : FsOracle) (cu : UrlResolver)
    (pairs : List (STask × List StagingDirective)) (task : STask)
    (acts : List StagingDirective) (h : (task, acts) ∈ pairs) :
    ∃ a ∈ (workLoop fs cu pairs).1, ∃ w ∈ a.tasks, w.uid = task.uid := by
  induction pairs with
  | nil => cases h
  | cons p rest ih =>
    rcases List.mem_cons.mp h with rfl | hmem
    · cases hr : (handleTaskLoop fs cu task acts).2 with
      | none =>
        exact ⟨Advance.mk [task] RPState.AGENT_SCHEDULING_PENDING,
               by simp [workLoop, hr], task, by simp, rfl⟩
      | some e =>
        exact ⟨Advance.mk [{ task with target_state := some RPState.FAILED,
                                       exception := some e }]
                 RPState.TMGR_STAGING_OUTPUT_PENDING,
               by simp [workLoop, hr],
               { task with target_state := some RPState.FAILED,
                           exception := some e },
               by simp, rfl⟩
    · rcases p with ⟨t', a'⟩
      rcases ih hmem with ⟨a, ha, hw⟩
      refine ⟨a, ?_, hw⟩
      simp only [workLoop]
      exact List.mem_cons_of_mem _ ha

/-- C3: if handling the staging directives of one task of a batch raises,
    that task is advanced with target_state FAILED and the exception
    recorded to TMGR_STAGING_OUTPUT_PENDING, while every task of the
    batch (the failed one included) still surfaces in an advance of the
    component -- the batch is neither aborted nor truncated. -/
theorem C3_failed_task_isolated (fs : FsOracle) (cu : UrlResolver)
    (tasks : List STask) (t : STask) (e : String)
    (ht : t ∈ tasks)
    (herr : (handleTaskLoop fs cu t (actionables t)).2 = some e) :
    Advance.mk [{ t with target_state := some RPState.FAILED,
                         exception := some e }]
        RPState.TMGR_STAGING_OUTPUT_PENDING ∈ (work fs cu tasks).advances ∧
    ∀ u ∈ tasks, ∃ a ∈ (work fs cu tasks).advances, ∃ w ∈ a.tasks,
      w.uid = u.uid := by
  have hact : ¬ (actionables t).isEmpty := by
    intro hemp
    rw [listIsEmpty_iff] at hemp
    rw [hemp] at herr
    simp [handleTaskLoop] at herr
  have hstag : t ∈ tasks.filter (fun t => ¬ (actionables t).isEmpty) :=
    List.mem_filter.mpr ⟨ht, by simpa using hact⟩
  constructor
  · unfold work
    simp only []
    apply List.mem_append_right
    exact workLoop_mem_failed fs cu _ t (actionables t) e
      (List.mem_map_of_mem (fun t => (t, actionables t)) hstag) herr
  · intro u hu
    by_cases hue : (actionables u).isEmpty
    · have hmem : u ∈ tasks.filter (fun t => (actionables t).isEmpty) :=
        List.mem_filter.mpr ⟨hu, hue⟩
      have hne : ¬ (tasks.filter (fun t => (actionables t).isEmpty)).isEmpty := by
        rw [listIsEmpty_iff]
        intro h0
        rw [h0] at hmem
        cases hmem
      refine ⟨Advance.mk (tasks.filter fun t => (actionables t).isEmpty)
                RPState.AGENT_SCHEDULING_PENDING, ?_, u, hmem, rfl⟩
      unfold work
      simp only []
      rw [if_neg hne]
      exact List.mem_append_left _ (by simp)
    · have hmem : u ∈ tasks.filter (fun t => ¬ (actionables t).isEmpty) :=
        List.mem_filter.mpr ⟨hu, by simpa using hue⟩
      rcases workLoop_mem_uid fs cu _ u (actionables u)
          (List.mem_map_of_mem (fun t => (t, actionables t)) hmem) with
        ⟨a, ha, hw⟩
      refine ⟨a, ?_, hw⟩
      unfold work
      simp only []
      exact List.mem_append_right _ ha

end RadicalPilot

namespace RadicalPilot

/-- Witness for C3_failed_task_isolated: a two-task batch where the first
    task's COPY directive resolves to a non-file target URL and raises
    the schema assert. -/
theorem C3_failed_task_isolated_witness :
    Advance.mk [{ c3Task with target_state := some RPState.FAILED,
                              exception := some "staging tgt must be file://" }]
        RPState.TMGR_STAGING_OUTPUT_PENDING ∈
      (work fsTrivial cuBad [c3Task, c4Task]).advances ∧
    ∀ u ∈ [c3Task, c4Task],
      ∃ a ∈ (work fsTrivial cuBad [c3Task, c4Task]).advances,
        ∃ w ∈ a.tasks, w.uid = u.uid :=
  C3_failed_task_isolated fsTrivial cuBad [c3Task, c4Task] c3Task
    "staging tgt must be file://" (by decide) (by decide)

/-- C4: the tasks of a batch without actionable input staging directives
    (no LINK/COPY/MOVE/TARBALL action) are advanced to
    AGENT_SCHEDULING_PENDING first and as one bulk, and the filesystem
    trace of the batch is exactly the trace of the actionable tasks
    alone -- the no-staging tasks cause no filesystem operation. -/
theorem C4_fast_path_bulk (fs : FsOracle) (cu : UrlResolver)
    (tasks : List STask)
    (h : tasks.filter (fun t => (actionables t).isEmpty) ≠ []) :
    (work fs cu tasks).advances.head? =
      some (Advance.mk (tasks.filter fun t => (actionables t).isEmpty)
        RPState.AGENT_SCHEDULING_PENDING) ∧
    (work fs cu tasks).trace =
      (work fs cu (tasks.filter fun t => ¬ (actionables t).isEmpty)).trace := by
  have hne : ¬ (tasks.filter (fun t => (actionables t).isEmpty)).isEmpty := by
    rw [listIsEmpty_iff]
    exact h
  constructor
  · unfold work
    simp only []
    rw [if_neg hne]
    rfl
  · unfold work
    simp only []
    rw [filter_idem]

/-- Witness for C4_fast_path_bulk on a batch holding one no-staging task
    and one task with a COPY directive. -/
theorem C4_fast_path_bulk_witness :
    (work fsTrivial cuFile [c4Task, c3Task]).advances.head? =
      some (Advance.mk ([c4Task, c3Task].filter fun t => (actionables t).isEmpty)
        RPState.AGENT_SCHEDULING_PENDING) ∧
    (work fsTrivial cuFile [c4Task, c3Task]).trace =
      (work fsTrivial cuFile
        ([c4Task, c3Task].filter fun t => ¬ (actionables t).isEmpty)).trace :=
  C4_fast_path_bulk fsTrivial cuFile [c4Task, c3Task] (by decide)

/-- C1: evaluation of the staging-input component at the failing input, a
    task carrying one TARBALL input staging directive.  The directive is
    counted actionable (line 70), yet the handling loop performs no
    filesystem operation at all -- in particular no tar extraction -- and
    the task is advanced to AGENT_SCHEDULING_PENDING untouched: the
    TARBALL branch of lines 227-241 is unreachable behind the
    line-156 skip. -/
theorem C1_tarball_never_extracted :
    actionables c1Task = c1Task.input_staging ∧
    actionables c1Task ≠ [] ∧
    (actionables c1Task).all (fun sd => sd.action = SDAction.TARBALL) = true ∧
    handleTaskLoop fsTrivial cuFile c1Task (actionables c1Task) = ([], none) ∧
    (work fsTrivial cuFile [c1Task]).trace = [] ∧
    (work fsTrivial cuFile [c1Task]).advances =
      [Advance.mk [c1Task] RPState.AGENT_SCHEDULING_PENDING] := by
  refine ⟨rfl, by decide, by decide, rfl, rfl, rfl⟩

end RadicalPilot

namespace RadicalPilot

/-! ## C7 -- launch method round trip -/

/-- C7: rehydrating an MPIExec launch method from the lm_info produced by
    `_init_from_scratch` restores every serialised field unchanged (the
    omplace normalisation of `_init_from_info` is the identity on the two
    values '' and 'omplace' that `_init_from_scratch` can produce), so
    launcher environment, launch command construction and rank command of
    the rehydrated instance coincide with the freshly probed one. -/
theorem C7_init_roundtrip (name : String) (env : List (String × String))
    (env_sh : String) (probe : MPIExecProbe) (info : LMInfo)
    (h : initFromScratch name env env_sh probe = Except.ok info) :
    initFromInfo info = Except.ok (mkStateVerbatim info) ∧
    ∀ st, initFromInfo info = Except.ok st →
      getLauncherEnv st = getLauncherEnv (mkStateVerbatim info) ∧
      getRankCmd st = getRankCmd (mkStateVerbatim info) ∧
      ∀ has_rf task exec_path,
        getLaunchCmdsSt st has_rf task exec_path =
          getLaunchCmdsSt (mkStateVerbatim info) has_rf task exec_path := by
  have hmain : initFromInfo info = Except.ok (mkStateVerbatim info) := by
    unfold initFromScratch at h
    by_cases h1 : probe.which_mpiexec = ""
    · rw [if_pos h1] at h
      exact Except.noConfusion h
    rw [if_neg h1] at h
    by_cases h2 : strContains (pyLower name) "_ccmrun" ∧ probe.which_ccmrun = ""
    · rw [if_pos h2] at h
      exact Except.noConfusion h
    rw [if_neg h2] at h
    by_cases h3 : strContains (pyLower name) "_dplace" ∧ probe.which_dplace = ""
    · rw [if_pos h3] at h
      exact Except.noConfusion h
    rw [if_neg h3] at h
    injection h with h4
    subst h4
    by_cases hch : strContains probe.hostname "cheyenne" <;>
      simp [initFromInfo, mkStateVerbatim, h1, hch]
  refine ⟨hmain, ?_⟩
  intro st hst
  rw [hmain] at hst
  injection hst with h5
  subst h5
  exact ⟨rfl, rfl, fun _ _ _ => rfl⟩

/-- Witness for C7_init_roundtrip on a concrete probe (a cheyenne host,
    so the omplace normalisation is exercised on the value 'omplace'). -/
theorem C7_init_roundtrip_witness :
    initFromInfo c7Info = Except.ok (mkStateVerbatim c7Info) ∧
    ∀ st, initFromInfo c7Info = Except.ok st →
      getLauncherEnv st = getLauncherEnv (mkStateVerbatim c7Info) ∧
      getRankCmd st = getRankCmd (mkStateVerbatim c7Info) ∧
      ∀ has_rf task exec_path,
        getLaunchCmdsSt st has_rf task exec_path =
          getLaunchCmdsSt (mkStateVerbatim c7Info) has_rf task exec_path :=
  C7_init_roundtrip "mpiexec" [] "env.sh" c7Probe c7Info (by rfl)

end RadicalPilot

namespace RadicalPilot

/-! ## C6 -- MPIExec placement

    The launch command is assembled as
    strip(command + ' ' + options + ' ' + exec_path); the lemmas below
    show that a pattern embedded in the unstripped string survives
    str.strip() when it starts with a non-whitespace character and
    something non-whitespace follows it. -/

/-- dropWhile distributes over an append whose left part contains an
    element failing the predicate. -/
theorem dropWhile_append_of_mem {α : Type} (p : α → Bool) (l₁ l₂ : List α)
    (h : ∃ c ∈ l₁, p c = false) :
    (l₁ ++ l₂).dropWhile p = l₁.dropWhile p ++ l₂ := by
  induction l₁ with
  | nil =>
    rcases h with ⟨c, hc, _⟩
    cases hc
  | cons a t ih =>
    by_cases ha : p a
    · rcases h with ⟨c, hc, hpc⟩
      rcases List.mem_cons.mp hc with rfl | hct
      · rw [ha] at hpc
        cases hpc
      · simp only [List.cons_append, List.dropWhile_cons, ha, if_true]
        exact ih ⟨c, hct, hpc⟩
    · simp only [List.cons_append, List.dropWhile_cons]
      rw [if_neg ha, if_neg ha, List.cons_append]

/-- dropWhile consumes an all-satisfying prefix. -/
theorem dropWhile_append_all {α : Type} (p : α → Bool) (l₁ l₂ : List α)
    (h : ∀ c ∈ l₁, p c = true) :
    (l₁ ++ l₂).dropWhile p = l₂.dropWhile p := by
  induction l₁ with
  | nil => rfl
  | cons a t ih =>
    simp only [List.cons_append, List.dropWhile_cons, h a (by simp), if_true]
    exact ih fun c hc => h c (List.mem_cons_of_mem a hc)

/-- A left strip keeps a pattern whose first character fails the
    predicate, preserving everything from the pattern on. -/
theorem dropWhile_keep {p : Char → Bool} (a pat b : List Char)
    (hne : pat ≠ []) (hhead : p (pat.headD ' ') = false) :
    ∃ a', (a ++ (pat ++ b)).dropWhile p = a' ++ (pat ++ b) := by
  by_cases ha : ∃ c ∈ a, p c = false
  · rw [dropWhile_append_of_mem p a (pat ++ b) ha]
    exact ⟨a.dropWhile p, rfl⟩
  · have haall : ∀ c ∈ a, p c = true := by
      intro c hc
      by_contra hpc
      exact ha ⟨c, hc, eq_false_of_ne_true hpc⟩
    rw [dropWhile_append_all p a _ haall]
    refine ⟨[], ?_⟩
    rw [List.nil_append]
    cases pat with
    | nil => exact absurd rfl hne
    | cons c cs =>
      have hc : p c = false := hhead
      simp only [List.cons_append, List.dropWhile_cons]
      rw [if_neg (by rw [hc]; exact Bool.false_ne_true)]

/-- A pattern embedded in a string survives str.strip() when its first
    character is not whitespace and some non-whitespace character occurs
    after it. -/
theorem infix_pyStrip (s pat : String) (a b : List Char)
    (hl : s.data = a ++ (pat.data ++ b))
    (hne : pat.data ≠ [])
    (hhead : isPySpace (pat.data.headD ' ') = false)
    (hb : ∃ c ∈ b, isPySpace c = false) :
    pat.data <:+: (pyStrip s).data := by
  obtain ⟨a', ha'⟩ := dropWhile_keep a pat.data b hne hhead
  show pat.data <:+:
    ((s.data.dropWhile isPySpace).reverse.dropWhile isPySpace).reverse
  rw [hl, ha']
  have hrev : (a' ++ (pat.data ++ b)).reverse =
      b.reverse ++ (pat.data.reverse ++ a'.reverse) := by
    simp [List.reverse_append, List.append_assoc]
  rw [hrev]
  have hbrev : ∃ c ∈ b.reverse, isPySpace c = false := by
    rcases hb with ⟨c, hc, hcp⟩
    exact ⟨c, List.mem_reverse.mpr hc, hcp⟩
  rw [dropWhile_append_of_mem _ _ _ hbrev]
  refine ⟨a', (b.reverse.dropWhile isPySpace).reverse, ?_⟩
  simp [List.reverse_append, List.append_assoc]

/-- headD of an append with a non-empty left part. -/
theorem headD_append_left (l₁ l₂ : List Char) (d : Char) (h : l₁ ≠ []) :
    (l₁ ++ l₂).headD d = l₁.headD d := by
  cases l₁ with
  | nil => exact absurd rfl h
  | cons a t => rfl

end RadicalPilot

namespace RadicalPilot


/-- Non-emptiness of string data under append. -/
theorem data_append_ne_nil (s t : String) (h : s.data ≠ []) :
    (s ++ t).data ≠ [] := by
  rw [String.data_append]
  cases hd : s.data with
  | nil => exact absurd hd h
  | cons a l => simp

/-- The head character of an appended string is the head of its left
    part. -/
theorem isPySpace_headD_data_append (s t : String) (h₁ : s.data ≠ [])
    (h₂ : isPySpace (s.data.headD ' ') = false) :
    isPySpace ((s ++ t).data.headD ' ') = false := by
  rw [String.data_append, headD_append_left _ _ _ h₁]
  exact h₂

end RadicalPilot

namespace RadicalPilot

/-- C6: for a placed task with non-empty slots.ranks, the MPIExec launch
    command contains '-np <number of ranks>', and exactly one placement
    file is produced, chosen by the '-rf' capability probe: with '-rf', a
    rank file listing per rank the node name and the rank's core indices
    (its core map's head entry), referenced by '-rf'; without it, a host
    file referenced by '--hostfile' together with '--depth=<number of
    core indices in the first rank's first core map entry>'. -/
theorem C6_mpiexec_placement (has_rf : Bool) (command omplace : String)
    (task : LMTask) (exec_path : String)
    (hranks : task.slots.ranks ≠ [])
    (hexec : ∃ c ∈ exec_path.data, isPySpace c = false) :
    ∃ cmd files,
      getLaunchCmds has_rf command omplace task exec_path = some (cmd, files) ∧
      ("-np " ++ toString task.slots.ranks.length).data <:+: cmd.data ∧
      (has_rf = true →
        files = [{ name := rfName task.task_sandbox_path task.uid,
                   content := rankFileStr task.slots.ranks }] ∧
        rankFileStr task.slots.ranks =
          String.join (task.slots.ranks.enum.map fun p =>
            "rank " ++ toString p.1 ++ "=" ++ p.2.node_name ++ " slots=" ++
              String.intercalate "," ((p.2.core_map.headD []).map toString) ++
              "\n") ∧
        ("-rf " ++ rfName task.task_sandbox_path task.uid).data <:+: cmd.data) ∧
      (has_rf = false →
        files = [{ name := hfName task.task_sandbox_path task.uid,
                   content := hostFileStr task.slots.ranks }] ∧
        ("--hostfile " ++ hfName task.task_sandbox_path task.uid).data <:+: cmd.data ∧
        ("--depth=" ++ toString ((task.slots.ranks.headD ⟨"", []⟩).core_map.headD []).length ++ " --cpu-bind depth").data <:+: cmd.data) := by
  have hE : task.slots.ranks.isEmpty = false := by
    rw [← Bool.not_eq_true, listIsEmpty_iff]
    exact hranks
  have hEne : ¬ task.slots.ranks.isEmpty = true := by
    rw [hE]
    exact Bool.false_ne_true
  rcases hexec with ⟨cx, hcx, hcxp⟩
  cases has_rf with
  | true =>
    by_cases homp : omplace = ""
    · subst homp
      have hred : getLaunchCmds true command "" task exec_path =
          some (pyStrip (command ++ " " ++ ("-np " ++ toString task.slots.ranks.length ++ " " ++ "-H " ++ String.intercalate "," (dedupHosts (task.slots.ranks.map fun r => r.node_name)) ++ " " ++ "-rf " ++ rfName task.task_sandbox_path task.uid) ++ " " ++ exec_path),
            [{ name := rfName task.task_sandbox_path task.uid,
               content := rankFileStr task.slots.ranks }]) := by
        unfold getLaunchCmds
        rw [if_neg hEne]
        rfl
      refine ⟨_, _, hred, ?_, ?_, ?_⟩
      · refine infix_pyStrip _ _
            (command.data ++ " ".data)
            (" ".data ++ "-H ".data ++ (String.intercalate "," (dedupHosts (task.slots.ranks.map fun r => r.node_name))).data ++ " ".data ++ "-rf ".data ++ (rfName task.task_sandbox_path task.uid).data ++ " ".data ++ exec_path.data) ?_ ?_ ?_ ?_
        · simp only [String.data_append, List.append_assoc]
        · exact data_append_ne_nil _ _ (by decide)
        · exact isPySpace_headD_data_append _ _ (by decide) (by decide)
        · exact ⟨cx, by simp [List.mem_append, hcx], hcxp⟩
      · intro _
        refine ⟨rfl, by simp [rankFileStr, rankFileLine], ?_⟩
        refine infix_pyStrip _ _
            (command.data ++ " ".data ++ "-np ".data ++ (toString task.slots.ranks.length).data ++ " ".data ++ "-H ".data ++ (String.intercalate "," (dedupHosts (task.slots.ranks.map fun r => r.node_name))).data ++ " ".data)
            (" ".data ++ exec_path.data) ?_ ?_ ?_ ?_
        · simp only [String.data_append, List.append_assoc]
        · exact data_append_ne_nil _ _ (by decide)
        · exact isPySpace_headD_data_append _ _ (by decide) (by decide)
        · exact ⟨cx, by simp [List.mem_append, hcx], hcxp⟩
      · intro h
        exact Bool.noConfusion h
    · have hred : getLaunchCmds true command omplace task exec_path =
          some (pyStrip (command ++ " " ++ (("-np " ++ toString task.slots.ranks.length ++ " " ++ "-H " ++ String.intercalate "," (dedupHosts (task.slots.ranks.map fun r => r.node_name)) ++ " " ++ "-rf " ++ rfName task.task_sandbox_path task.uid) ++ " " ++ omplace) ++ " " ++ exec_path),
            [{ name := rfName task.task_sandbox_path task.uid,
               content := rankFileStr task.slots.ranks }]) := by
        unfold getLaunchCmds
        rw [if_neg hEne]
        simp only [if_neg homp]
        rfl
      refine ⟨_, _, hred, ?_, ?_, ?_⟩
      · refine infix_pyStrip _ _
            (command.data ++ " ".data)
            (" ".data ++ "-H ".data ++ (String.intercalate "," (dedupHosts (task.slots.ranks.map fun r => r.node_name))).data ++ " ".data ++ "-rf ".data ++ (rfName task.task_sandbox_path task.uid).data ++ " ".data ++ omplace.data ++ " ".data ++ exec_path.data) ?_ ?_ ?_ ?_
        · simp only [String.data_append, List.append_assoc]
        · exact data_append_ne_nil _ _ (by decide)
        · exact isPySpace_headD_data_append _ _ (by decide) (by decide)
        · exact ⟨cx, by simp [List.mem_append, hcx], hcxp⟩
      · intro _
        refine ⟨rfl, by simp [rankFileStr, rankFileLine], ?_⟩
        refine infix_pyStrip _ _
            (command.data ++ " ".data ++ "-np ".data ++ (toString task.slots.ranks.length).data ++ " ".data ++ "-H ".data ++ (String.intercalate "," (dedupHosts (task.slots.ranks.map fun r => r.node_name))).data ++ " ".data)
            (" ".data ++ omplace.data ++ " ".data ++ exec_path.data) ?_ ?_ ?_ ?_
        · simp only [String.data_append, List.append_assoc]
        · exact data_append_ne_nil _ _ (by decide)
        · exact isPySpace_headD_data_append _ _ (by decide) (by decide)
        · exact ⟨cx, by simp [List.mem_append, hcx], hcxp⟩
      · intro h
        exact Bool.noConfusion h
  | false =>
    by_cases homp : omplace = ""
    · subst homp
      have hred : getLaunchCmds false command "" task exec_path =
          some (pyStrip (command ++ " " ++ ("-np " ++ toString task.slots.ranks.length ++ " " ++ "--hostfile " ++ hfName task.task_sandbox_path task.uid ++ " " ++ "--depth=" ++ toString ((task.slots.ranks.headD ⟨"", []⟩).core_map.headD []).length ++ " --cpu-bind depth") ++ " " ++ exec_path),
            [{ name := hfName task.task_sandbox_path task.uid,
               content := hostFileStr task.slots.ranks }]) := by
        unfold getLaunchCmds
        rw [if_neg hEne]
        rfl
      refine ⟨_, _, hred, ?_, ?_, ?_⟩
      · refine infix_pyStrip _ _
            (command.data ++ " ".data)
            (" ".data ++ "--hostfile ".data ++ (hfName task.task_sandbox_path task.uid).data ++ " ".data ++ "--depth=".data ++ (toString ((task.slots.ranks.headD ⟨"", []⟩).core_map.headD []).length).data ++ " --cpu-bind depth".data ++ " ".data ++ exec_path.data) ?_ ?_ ?_ ?_
        · simp only [String.data_append, List.append_assoc]
        · exact data_append_ne_nil _ _ (by decide)
        · exact isPySpace_headD_data_append _ _ (by decide) (by decide)
        · exact ⟨cx, by simp [List.mem_append, hcx], hcxp⟩
      · intro h
        exact Bool.noConfusion h
      · intro _
        refine ⟨rfl, ?_, ?_⟩
        · refine infix_pyStrip _ _
              (command.data ++ " ".data ++ "-np ".data ++ (toString task.slots.ranks.length).data ++ " ".data)
              (" ".data ++ "--depth=".data ++ (toString ((task.slots.ranks.headD ⟨"", []⟩).core_map.headD []).length).data ++ " --cpu-bind depth".data ++ " ".data ++ exec_path.data) ?_ ?_ ?_ ?_
          · simp only [String.data_append, List.append_assoc]
          · exact data_append_ne_nil _ _ (by decide)
          · exact isPySpace_headD_data_append _ _ (by decide) (by decide)
          · exact ⟨cx, by simp [List.mem_append, hcx], hcxp⟩
        · refine infix_pyStrip _ _
              (command.data ++ " ".data ++ "-np ".data ++ (toString task.slots.ranks.length).data ++ " ".data ++ "--hostfile ".data ++ (hfName task.task_sandbox_path task.uid).data ++ " ".data)
              (" ".data ++ exec_path.data) ?_ ?_ ?_ ?_
          · simp only [String.data_append, List.append_assoc]
          · exact data_append_ne_nil _ _ (data_append_ne_nil _ _ (by decide))
          · exact isPySpace_headD_data_append _ _ (data_append_ne_nil _ _ (by decide))
              (isPySpace_headD_data_append _ _ (by decide) (by decide))
          · exact ⟨cx, by simp [List.mem_append, hcx], hcxp⟩
    · have hred : getLaunchCmds false command omplace task exec_path =
          some (pyStrip (command ++ " " ++ (("-np " ++ toString task.slots.ranks.length ++ " " ++ "--hostfile " ++ hfName task.task_sandbox_path task.uid ++ " " ++ "--depth=" ++ toString ((task.slots.ranks.headD ⟨"", []⟩).core_map.headD []).length ++ " --cpu-bind depth") ++ " " ++ omplace) ++ " " ++ exec_path),
            [{ name := hfName task.task_sandbox_path task.uid,
               content := hostFileStr task.slots.ranks }]) := by
        unfold getLaunchCmds
        rw [if_neg hEne]
        simp only [if_neg homp]
        rfl
      refine ⟨_, _, hred, ?_, ?_, ?_⟩
      · refine infix_pyStrip _ _
            (command.data ++ " ".data)
            (" ".data ++ "--hostfile ".data ++ (hfName task.task_sandbox_path task.uid).data ++ " ".data ++ "--depth=".data ++ (toString ((task.slots.ranks.headD ⟨"", []⟩).core_map.headD []).length).data ++ " --cpu-bind depth".data ++ " ".data ++ omplace.data ++ " ".data ++ exec_path.data) ?_ ?_ ?_ ?_
        · simp only [String.data_append, List.append_assoc]
        · exact data_append_ne_nil _ _ (by decide)
        · exact isPySpace_headD_data_append _ _ (by decide) (by decide)
        · exact ⟨cx, by simp [List.mem_append, hcx], hcxp⟩
      · intro h
        exact Bool.noConfusion h
      · intro _
        refine ⟨rfl, ?_, ?_⟩
        · refine infix_pyStrip _ _
              (command.data ++ " ".data ++ "-np ".data ++ (toString task.slots.ranks.length).data ++ " ".data)
              (" ".data ++ "--depth=".data ++ (toString ((task.slots.ranks.headD ⟨"", []⟩).core_map.headD []).length).data ++ " --cpu-bind depth".data ++ " ".data ++ omplace.data ++ " ".data ++ exec_path.data) ?_ ?_ ?_ ?_
          · simp only [String.data_append, List.append_assoc]
          · exact data_append_ne_nil _ _ (by decide)
          · exact isPySpace_headD_data_append _ _ (by decide) (by decide)
          · exact ⟨cx, by simp [List.mem_append, hcx], hcxp⟩
        · refine infix_pyStrip _ _
              (command.data ++ " ".data ++ "-np ".data ++ (toString task.slots.ranks.length).data ++ " ".data ++ "--hostfile ".data ++ (hfName task.task_sandbox_path task.uid).data ++ " ".data)
              (" ".data ++ omplace.data ++ " ".data ++ exec_path.data) ?_ ?_ ?_ ?_
          · simp only [String.data_append, List.append_assoc]
          · exact data_append_ne_nil _ _ (data_append_ne_nil _ _ (by decide))
          · exact isPySpace_headD_data_append _ _ (data_append_ne_nil _ _ (by decide))
              (isPySpace_headD_data_append _ _ (by decide) (by decide))
          · exact ⟨cx, by simp [List.mem_append, hcx], hcxp⟩

end RadicalPilot

namespace RadicalPilot

/-- Witness for C6_mpiexec_placement: a concrete two-rank task launched
    with a rankfile-capable mpiexec. -/
theorem C6_mpiexec_placement_witness :
    ∃ cmd files,
      getLaunchCmds true "/usr/bin/mpiexec" "" c6Task "/s/p/t3/exec.sh" =
        some (cmd, files) ∧
      ("-np " ++ toString c6Task.slots.ranks.length).data <:+: cmd.data ∧
      (true = true →
        files = [{ name := rfName c6Task.task_sandbox_path c6Task.uid,
                   content := rankFileStr c6Task.slots.ranks }] ∧
        rankFileStr c6Task.slots.ranks =
          String.join (c6Task.slots.ranks.enum.map fun p =>
            "rank " ++ toString p.1 ++ "=" ++ p.2.node_name ++ " slots=" ++
              String.intercalate "," ((p.2.core_map.headD []).map toString) ++
              "\n") ∧
        ("-rf " ++ rfName c6Task.task_sandbox_path c6Task.uid).data <:+:
          cmd.data) ∧
      (true = false →
        files = [{ name := hfName c6Task.task_sandbox_path c6Task.uid,
                   content := hostFileStr c6Task.slots.ranks }] ∧
        ("--hostfile " ++ hfName c6Task.task_sandbox_path c6Task.uid).data <:+:
          cmd.data ∧
        ("--depth=" ++
            toString
              ((c6Task.slots.ranks.headD ⟨"", []⟩).core_map.headD []).length ++
            " --cpu-bind depth").data <:+: cmd.data) :=
  C6_mpiexec_placement true "/usr/bin/mpiexec" "" c6Task "/s/p/t3/exec.sh"
    (by decide) (by decide)

end RadicalPilot
